import Mathlib

/-!
Verification development for the predictx gateway + settlement core.

The settlement scheduler model is translated from the background task in
the route layer (registerRoutes, the 60-second setInterval) together with
the in-memory store (MemStorage.getActivePredictions and
MemStorage.updatePrediction in server/storage.ts).  Prices are modelled as
rationals, timestamps as integers.  A thrown oracle error is modelled as
the oracle function returning none; the Math.random() draw used by the
direction case is modelled as an explicit boolean input per prediction id;
success of the remote settlement submission is an explicit boolean input
per prediction id (a false submission is the thrown-and-caught error path).
-/

namespace PredictX

/-- Prediction record, the fields of the predictions table that the
settlement core reads and writes (shared/schema.ts).  targetPrice and
direction are nullable; isCorrect is null until settlement. -/
structure Prediction where
  id : Nat
  userId : Nat
  assetId : String
  predictionType : String
  targetPrice : Option ℚ
  direction : Option String
  expiresAt : Int
  actualPrice : Option ℚ
  isCorrect : Option Bool
  settledAt : Option Int
  deriving Repr, DecidableEq

/-- Fields written back by the scheduler when a contract settles
(the updatePrediction call of the settlement tick). -/
structure SettlementUpdate where
  actualPrice : ℚ
  isCorrect : Bool
  settledAt : Int
  deriving Repr, DecidableEq

/-- Merge a settlement update into a stored record, as the spread
in MemStorage.updatePrediction does for these three fields. -/
def applySettlementUpdate (u : SettlementUpdate) (p : Prediction) : Prediction :=
  { p with actualPrice := some u.actualPrice, isCorrect := some u.isCorrect,
           settledAt := some u.settledAt }

/-- MemStorage.getActivePredictions: filters the stored predictions to
those with expiresAt strictly after now and isCorrect still null. -/
def getActivePredictions (predictions : List Prediction) (now : Int) : List Prediction :=
  predictions.filter (fun p => decide (now < p.expiresAt) && decide (p.isCorrect = none))

/-- MemStorage.updatePrediction restricted to the settlement fields:
replaces the record with the given id by its merge with the update. -/
def updatePrediction (predictions : List Prediction) (id : Nat) (u : SettlementUpdate) :
    List Prediction :=
  predictions.map (fun p => if p.id = id then applySettlementUpdate u p else p)

/-- The isCorrect switch of the settlement tick.  price_target compares
with a two percent tolerance of the target; direction takes the random
draw (Math.random() > 0.5 in the source); above_below compares strictly,
using the greater-than branch exactly when direction equals up.  A missing
targetPrice or an unknown kind leaves the initial false. -/
def computeIsCorrect (p : Prediction) (currentPrice : ℚ) (rand : Bool) : Bool :=
  if p.predictionType = "price_target" then
    match p.targetPrice with
    | some targetPrice => decide (|currentPrice - targetPrice| ≤ targetPrice * (2 / 100))
    | none => false
  else if p.predictionType = "direction" then
    rand
  else if p.predictionType = "above_below" then
    match p.targetPrice with
    | some targetPrice =>
        if p.direction = some "up" then decide (targetPrice < currentPrice)
        else decide (currentPrice < targetPrice)
    | none => false
  else false

/-- External inputs of one scheduler tick: the oracle (none models a
thrown price-lookup error), the random draw consumed by the direction
case, and whether the remote settlement submission for a given id
succeeds. -/
structure TickEnv where
  oracle : String → Option ℚ
  rand : Nat → Bool
  submitOk : Nat → Bool

/-- Observable events emitted while a tick runs, in program order. -/
inductive TickEvent where
  | oracleFetch (assetId : String)
  | storeUpdate (id : Nat) (u : SettlementUpdate)
  | userStatsUpdate (userId : Nat) (isCorrect : Bool)
  | remoteSettle (id : Nat) (ok : Bool)
  | broadcastSettled (id : Nat) (isCorrect : Bool) (actualPrice : ℚ)
  | tickAborted
  deriving Repr, DecidableEq

/-- The for-loop of the settlement tick over the snapshot list returned by
the store query, threading the store.  A contract with expiresAt after now
is skipped.  For a due contract the oracle is consulted: a thrown lookup
error propagates to the single outer catch of the tick, so the rest of the
batch is abandoned (tickAborted).  Otherwise the record is updated in the
store, user stats are updated, the remote submission is attempted inside
its own try/catch (its failure is only logged), and the settlement is
broadcast. -/
def settleLoop (env : TickEnv) (now : Int) :
    List Prediction → List Prediction → List Prediction × List TickEvent
  | [], store => (store, [])
  | p :: rest, store =>
      if p.expiresAt ≤ now then
        match env.oracle p.assetId with
        | none => (store, [TickEvent.oracleFetch p.assetId, TickEvent.tickAborted])
        | some currentPrice =>
            let isCorrect := computeIsCorrect p currentPrice (env.rand p.id)
            let u : SettlementUpdate :=
              { actualPrice := currentPrice, isCorrect := isCorrect, settledAt := now }
            let store1 := updatePrediction store p.id u
            let evs := [TickEvent.oracleFetch p.assetId,
                        TickEvent.storeUpdate p.id u,
                        TickEvent.userStatsUpdate p.userId isCorrect,
                        TickEvent.remoteSettle p.id (env.submitOk p.id),
                        TickEvent.broadcastSettled p.id isCorrect currentPrice]
            let r := settleLoop env now rest store1
            (r.1, evs ++ r.2)
      else settleLoop env now rest store

/-- One settlement tick: query the store for active predictions (the query
takes its own timestamp nowQuery), then take the tick timestamp nowTick
and run the settlement loop over the snapshot. -/
def runTick (env : TickEnv) (store : List Prediction) (nowQuery nowTick : Int) :
    List Prediction × List TickEvent :=
  settleLoop env nowTick (getActivePredictions store nowQuery) store

/-- A tick environment with a constant oracle price and fixed draws. -/
def envBase : TickEnv :=
  { oracle := fun _ => some 100, rand := fun _ => true, submitOk := fun _ => true }

/-- A contract that expired at time 0 and is still unsettled. -/
def cExpired : Prediction :=
  { id := 1, userId := 7, assetId := "bitcoin", predictionType := "price_target",
    targetPrice := some 100, direction := none, expiresAt := 0,
    actualPrice := none, isCorrect := none, settledAt := none }

lemma settleLoop_skip_all (env : TickEnv) (now : Int) :
    ∀ (l store : List Prediction), (∀ p ∈ l, ¬ p.expiresAt ≤ now) →
      settleLoop env now l store = (store, []) := by
  intro l
  induction l with
  | nil => intro store _; rfl
  | cons p rest ih =>
      intro store h
      have hp : ¬ p.expiresAt ≤ now := h p (List.mem_cons_self p rest)
      simp only [settleLoop, if_neg hp]
      exact ih store (fun q hq => h q (List.mem_cons_of_mem p hq))

/-- C1: the claim says the tick selects exactly the contracts with
expiresAt at or before now that are still pending.  The code does the
opposite: getActivePredictions keeps only contracts with expiresAt
strictly after its query time, while the loop then requires expiresAt at
or before the tick time, so with the two timestamps equal no contract is
ever selected and the tick is a no-op; concretely, a contract expired at
time 0 and still unsettled is not returned by the query at time 10 and
stays pending through the tick. -/
theorem due_listing_never_selects_expired :
    (∀ (env : TickEnv) (store : List Prediction) (now : Int),
       runTick env store now now = (store, [])) ∧
    (cExpired.expiresAt ≤ 10 ∧ cExpired.isCorrect = none ∧
     getActivePredictions [cExpired] 10 = [] ∧
     runTick envBase [cExpired] 10 10 = ([cExpired], [])) := by
  constructor
  · intro env store now
    unfold runTick
    apply settleLoop_skip_all
    intro p hp
    have hmem := List.mem_filter.mp hp
    have h1 : (decide (now < p.expiresAt) && decide (p.isCorrect = none)) = true := hmem.2
    have h2 : now < p.expiresAt := by
      have := (Bool.and_eq_true _ _).mp h1
      exact of_decide_eq_true this.1
    omega
  · refine ⟨by decide, by decide, by decide, by decide⟩

/-- An environment whose oracle fails for asset aaa and succeeds for bbb. -/
def envAB : TickEnv :=
  { oracle := fun a => if a = "bbb" then some 100 else none,
    rand := fun _ => true, submitOk := fun _ => true }

/-- A due price-target contract on the failing asset. -/
def pA : Prediction :=
  { id := 1, userId := 7, assetId := "aaa", predictionType := "price_target",
    targetPrice := some 100, direction := none, expiresAt := 5,
    actualPrice := none, isCorrect := none, settledAt := none }

/-- A due price-target contract on the healthy asset, listed after pA. -/
def pB : Prediction :=
  { pA with id := 2, assetId := "bbb" }

/-- C2 counterexample: with two due contracts in one tick, an oracle
failure on the first leaves the second unsettled as well: the tick returns
the store unchanged and aborts, although pB is due, pending and its oracle
lookup would have succeeded.  This refutes the claim that every other due
contract still settles in that tick. -/
theorem oracle_failure_blocks_batch_cex :
    getActivePredictions [pA, pB] 0 = [pA, pB] ∧
    (envAB.oracle pB.assetId).isSome = true ∧
    pB.expiresAt ≤ 10 ∧ pB.isCorrect = none ∧
    runTick envAB [pA, pB] 0 10 =
      ([pA, pB], [TickEvent.oracleFetch "aaa", TickEvent.tickAborted]) := by
  refine ⟨by decide, by decide, by decide, by decide, by decide⟩

/-- C2 amended: an oracle failure for a due contract aborts the remainder
of the tick.  Contracts before the failing one are processed as usual, the
failing contract remains pending, and nothing after it is settled in this
tick: the loop over l1 followed by the failing contract A and any tail l2
produces exactly the store and events of the loop over l1, then the failed
fetch and the abort. -/
theorem oracle_failure_aborts_rest_of_tick
    (env : TickEnv) (now : Int) (l1 l2 : List Prediction) (A : Prediction)
    (store : List Prediction)
    (h1 : ∀ p ∈ l1, (env.oracle p.assetId).isSome = true)
    (h2 : A.expiresAt ≤ now) (h3 : env.oracle A.assetId = none) :
    settleLoop env now (l1 ++ A :: l2) store =
      ((settleLoop env now l1 store).1,
       (settleLoop env now l1 store).2 ++
         [TickEvent.oracleFetch A.assetId, TickEvent.tickAborted]) := by
  induction l1 generalizing store with
  | nil =>
      simp only [List.nil_append, settleLoop, if_pos h2, h3]
  | cons p rest ih =>
      have hp : (env.oracle p.assetId).isSome = true := h1 p (List.mem_cons_self p rest)
      have hrest : ∀ q ∈ rest, (env.oracle q.assetId).isSome = true :=
        fun q hq => h1 q (List.mem_cons_of_mem p hq)
      obtain ⟨c, hc⟩ := Option.isSome_iff_exists.mp hp
      by_cases hdue : p.expiresAt ≤ now
      · simp only [List.cons_append, settleLoop, if_pos hdue, hc, List.append_eq]
        rw [ih _ hrest]
        simp [List.append_assoc]
      · simp only [List.cons_append, settleLoop, if_neg hdue, List.append_eq]
        exact ih store hrest

/-- C2 amended, witnessed at the concrete two-contract batch: the healthy
contract pB precedes the failing pA, pB settles, pA aborts the tail. -/
theorem oracle_failure_aborts_rest_of_tick_witness :
    (∀ p ∈ [pB], (envAB.oracle p.assetId).isSome = true) ∧
    pA.expiresAt ≤ (10 : Int) ∧ envAB.oracle pA.assetId = none ∧
    settleLoop envAB 10 ([pB] ++ pA :: []) [pA, pB] =
      ((settleLoop envAB 10 [pB] [pA, pB]).1,
       (settleLoop envAB 10 [pB] [pA, pB]).2 ++
         [TickEvent.oracleFetch pA.assetId, TickEvent.tickAborted]) :=
  ⟨by decide, by decide, by decide,
   oracle_failure_aborts_rest_of_tick envAB 10 [pB] [] pA [pA, pB]
     (by decide) (by decide) (by decide)⟩

/-- A due direction contract, expiring inside the query window. -/
def pDir : Prediction :=
  { id := 3, userId := 9, assetId := "bitcoin", predictionType := "direction",
    targetPrice := none, direction := some "up", expiresAt := 5,
    actualPrice := none, isCorrect := none, settledAt := none }

/-- An environment whose random draw is the given boolean. -/
def envRand (b : Bool) : TickEnv :=
  { oracle := fun _ => some 100, rand := fun _ => b, submitOk := fun _ => true }

/-- C4: the claim says a due direction contract with no submission-time
reference price is left unsettled with no outcome written.  The code
instead settles it in the same tick and writes as its correctness outcome
exactly the random draw (Math.random() > 0.5 in the source): for either
value b of the draw the contract ends Settled with isCorrect = b. -/
theorem direction_settles_from_random_source :
    ∀ b : Bool,
      (runTick (envRand b) [pDir] 0 10).1 =
        [{ pDir with actualPrice := some 100, isCorrect := some b, settledAt := some 10 }] := by
  intro b
  cases b <;> decide

/-- The above-below example contract of the spec: direction up, target 50. -/
def upExample : Prediction :=
  { id := 4, userId := 9, assetId := "bitcoin", predictionType := "above_below",
    targetPrice := some 50, direction := some "up", expiresAt := 5,
    actualPrice := none, isCorrect := none, settledAt := none }

/-- C7: for price-target contracts isCorrect is true iff the actual price
is within two percent of the target; for above-below contracts isCorrect
is true iff direction up and actual strictly above target, or direction
down and actual strictly below target; the settled record stores exactly
this value together with the fetched price; and the concrete example
direction up, target 50, actual 49.99 settles false. -/
theorem settlement_correctness_rules :
    (∀ (p : Prediction) (c t : ℚ) (r : Bool),
       p.predictionType = "price_target" → p.targetPrice = some t →
       (computeIsCorrect p c r = true ↔ |c - t| ≤ (2 / 100) * t)) ∧
    (∀ (p : Prediction) (c t : ℚ) (r : Bool),
       p.predictionType = "above_below" → p.targetPrice = some t →
       p.direction = some "up" ∨ p.direction = some "down" →
       (computeIsCorrect p c r = true ↔
         (p.direction = some "up" ∧ t < c) ∨ (p.direction = some "down" ∧ c < t))) ∧
    (∀ (env : TickEnv) (now : Int) (p : Prediction) (store : List Prediction) (c : ℚ),
       env.oracle p.assetId = some c → p.expiresAt ≤ now →
       (settleLoop env now [p] store).1 =
         updatePrediction store p.id
           { actualPrice := c, isCorrect := computeIsCorrect p c (env.rand p.id),
             settledAt := now }) ∧
    (∀ r : Bool, computeIsCorrect upExample (4999 / 100) r = false) := by
  refine ⟨?_, ?_, ?_, ?_⟩
  · intro p c t r hk ht
    have h : computeIsCorrect p c r = decide (|c - t| ≤ t * (2 / 100)) := by
      simp [computeIsCorrect, hk, ht]
    rw [h, decide_eq_true_iff, mul_comm]
  · intro p c t r hk ht hd
    have h1 : p.predictionType ≠ "price_target" := by rw [hk]; decide
    have h2 : p.predictionType ≠ "direction" := by rw [hk]; decide
    rcases hd with hup | hdown
    · simp [computeIsCorrect, if_neg h1, if_neg h2, hk, ht, hup]
    · have hne : p.direction ≠ some "up" := by rw [hdown]; decide
      simp [computeIsCorrect, if_neg h1, if_neg h2, hk, ht, hdown, if_neg hne]
  · intro env now p store c hc hdue
    simp [settleLoop, if_pos hdue, hc]
  · intro r
    have h : computeIsCorrect upExample (4999 / 100) r =
        decide ((50 : ℚ) < 4999 / 100) := by
      simp [computeIsCorrect, upExample]
    rw [h]
    exact decide_eq_false (by norm_num)

/-- C7 witnessed at concrete contracts: a price-target contract at target
100 and actual 101, the above-below example at actual 51, the single-step
settlement of the direction contract, and the 49.99 example. -/
theorem settlement_correctness_rules_witness :
    (cExpired.predictionType = "price_target" ∧ cExpired.targetPrice = some 100 ∧
     (computeIsCorrect cExpired 101 true = true ↔
       |(101 : ℚ) - 100| ≤ (2 / 100) * 100)) ∧
    (upExample.predictionType = "above_below" ∧ upExample.targetPrice = some 50 ∧
     (computeIsCorrect upExample 51 true = true ↔
       (upExample.direction = some "up" ∧ (50 : ℚ) < 51) ∨
       (upExample.direction = some "down" ∧ (51 : ℚ) < 50))) ∧
    (envBase.oracle pDir.assetId = some 100 ∧ pDir.expiresAt ≤ (10 : Int) ∧
     (settleLoop envBase 10 [pDir] [pDir]).1 =
       updatePrediction [pDir] pDir.id
         { actualPrice := 100, isCorrect := computeIsCorrect pDir 100 (envBase.rand pDir.id),
           settledAt := 10 }) ∧
    computeIsCorrect upExample (4999 / 100) true = false :=
  ⟨⟨rfl, rfl, settlement_correctness_rules.1 cExpired 101 100 true rfl rfl⟩,
   ⟨rfl, rfl, settlement_correctness_rules.2.1 upExample 51 50 true rfl rfl
      (Or.inl rfl)⟩,
   ⟨rfl, by decide, settlement_correctness_rules.2.2.1 envBase 10 pDir [pDir] 100
      rfl (by decide)⟩,
   settlement_correctness_rules.2.2.2 true⟩

/-- The commit-before-submit checker: scans a tick trace left to right,
accumulating the ids whose store update has been seen, and demands that
every remote settlement submission is for an id already committed. -/
def commitsBeforeSubmits (committed : List Nat) : List TickEvent → Bool
  | [] => true
  | TickEvent.storeUpdate id _ :: rest => commitsBeforeSubmits (id :: committed) rest
  | TickEvent.remoteSettle id _ :: rest =>
      decide (id ∈ committed) && commitsBeforeSubmits committed rest
  | _ :: rest => commitsBeforeSubmits committed rest

/-- Number of remote settlement submissions for a given id in a trace. -/
def submitCount (id : Nat) : List TickEvent → Nat
  | [] => 0
  | TickEvent.remoteSettle i _ :: rest => (if i = id then 1 else 0) + submitCount id rest
  | _ :: rest => submitCount id rest

lemma settleLoop_submit_independent (env env' : TickEnv) (now : Int)
    (ho : env.oracle = env'.oracle) (hr : env.rand = env'.rand) :
    ∀ (l store : List Prediction),
      (settleLoop env' now l store).1 = (settleLoop env now l store).1 := by
  intro l
  induction l with
  | nil => intro store; rfl
  | cons p rest ih =>
      intro store
      by_cases hdue : p.expiresAt ≤ now
      · cases hc : env.oracle p.assetId with
        | none =>
            have hc' : env'.oracle p.assetId = none := by rw [← ho]; exact hc
            simp [settleLoop, if_pos hdue, hc, hc']
        | some c =>
            have hc' : env'.oracle p.assetId = some c := by rw [← ho]; exact hc
            simp only [settleLoop, if_pos hdue, hc, hc', ← hr]
            exact ih _
      · simp only [settleLoop, if_neg hdue]
        exact ih store

lemma settleLoop_commits_before (env : TickEnv) (now : Int) :
    ∀ (l store : List Prediction) (committed : List Nat),
      commitsBeforeSubmits committed (settleLoop env now l store).2 = true := by
  intro l
  induction l with
  | nil => intro store committed; rfl
  | cons p rest ih =>
      intro store committed
      by_cases hdue : p.expiresAt ≤ now
      · cases hc : env.oracle p.assetId with
        | none => simp [settleLoop, if_pos hdue, hc, commitsBeforeSubmits]
        | some c =>
            simp only [settleLoop, if_pos hdue, hc, List.cons_append, List.nil_append,
              commitsBeforeSubmits]
            rw [decide_eq_true (List.mem_cons_self p.id committed)]
            rw [Bool.true_and]
            exact ih _ _
      · simp only [settleLoop, if_neg hdue]
        exact ih store committed

lemma submitCount_le_count (env : TickEnv) (now : Int) (id : Nat) :
    ∀ (l store : List Prediction),
      submitCount id (settleLoop env now l store).2 ≤ (l.map Prediction.id).count id := by
  intro l
  induction l with
  | nil => intro store; simp [settleLoop, submitCount]
  | cons p rest ih =>
      intro store
      have hcount : ((p :: rest).map Prediction.id).count id =
          (rest.map Prediction.id).count id + (if p.id = id then 1 else 0) := by
        simp [List.count_cons, beq_iff_eq]
      by_cases hdue : p.expiresAt ≤ now
      · cases hc : env.oracle p.assetId with
        | none =>
            simp only [settleLoop, if_pos hdue, hc, submitCount]
            omega
        | some c =>
            simp only [settleLoop, if_pos hdue, hc, List.cons_append, List.nil_append,
              submitCount]
            have := ih (updatePrediction store p.id
              { actualPrice := c, isCorrect := computeIsCorrect p c (env.rand p.id),
                settledAt := now })
            omega
      · simp only [settleLoop, if_neg hdue]
        have := ih store
        omega

/-- C8: the local store update of a settled contract is committed before
the remote settlement submission for it is attempted (every remoteSettle
event in a tick trace is preceded by a storeUpdate for the same id), the
resulting store contents are identical whatever the outcome of the remote
submissions (a failed submission is only logged, the committed record is
not undone), and, for a store whose due snapshot carries distinct ids, the
remote submission is attempted at most once per contract in the tick. -/
theorem local_commit_precedes_remote_submit
    (env : TickEnv) (f : Nat → Bool) (store : List Prediction)
    (nowQ nowT : Int) (id : Nat) :
    (runTick { env with submitOk := f } store nowQ nowT).1 =
      (runTick env store nowQ nowT).1 ∧
    commitsBeforeSubmits [] (runTick env store nowQ nowT).2 = true ∧
    (((getActivePredictions store nowQ).map Prediction.id).Nodup →
       submitCount id (runTick env store nowQ nowT).2 ≤ 1) := by
  refine ⟨?_, ?_, ?_⟩
  · exact settleLoop_submit_independent env { env with submitOk := f } nowT rfl rfl _ store
  · exact settleLoop_commits_before env nowT _ store []
  · intro hnd
    have h1 := submitCount_le_count env nowT id (getActivePredictions store nowQ) store
    have h2 := (List.nodup_iff_count_le_one.mp hnd) id
    simp only [runTick]
    omega

/-- C8 witnessed on a concrete two-contract store: both submissions fail
in one run and succeed in the other, yet the stores agree; the trace is
commit-ordered; at most one submission per id. -/
theorem local_commit_precedes_remote_submit_witness :
    (runTick { envBase with submitOk := fun _ => false } [pA, pB] 0 10).1 =
      (runTick envBase [pA, pB] 0 10).1 ∧
    commitsBeforeSubmits [] (runTick envBase [pA, pB] 0 10).2 = true ∧
    (((getActivePredictions [pA, pB] 0).map Prediction.id).Nodup ∧
     submitCount 1 (runTick envBase [pA, pB] 0 10).2 ≤ 1) :=
  ⟨(local_commit_precedes_remote_submit envBase (fun _ => false) [pA, pB] 0 10 1).1,
   (local_commit_precedes_remote_submit envBase (fun _ => false) [pA, pB] 0 10 1).2.1,
   by decide,
   (local_commit_precedes_remote_submit envBase (fun _ => false) [pA, pB] 0 10 1).2.2
     (by decide)⟩

/-!
Gateway model, translated from the env-validated YellowNetworkService
draft: the mutable service state, the synchronous bookkeeping of request
(insert into the pending map, send the frame, schedule the 30 second
timeout), handleIncoming, the timeout callback, and the onclose and onopen
socket handlers.  The pending map and the set of scheduled timeout timers
are modelled as lists of correlation ids; promise single-settlement is
modelled by the settledCalls set: a resolve or reject on an already
settled promise delivers no further outcome to the caller. -/

/-- Mutable fields of YellowNetworkService relevant to the claims.
wsOpen models ws being non-null with readyState OPEN. -/
structure GatewayState where
  wsOpen : Bool
  isConnected : Bool
  sessionId : Option String
  authToken : Option String
  sessionOpen : Bool
  pending : List String
  timers : List String
  settledCalls : List String
  deriving Repr, DecidableEq

/-- Outcome delivered to the caller of a request: the parsed response, a
parse failure rejection, the timeout rejection of the 30 second timer, or
the rejection caused by send throwing inside the promise executor. -/
inductive CallOutcome where
  | response (id : String)
  | decodeError (id : String)
  | timeoutError (id : String)
  | sendError (id : String) (msg : String)
  deriving Repr, DecidableEq

/-- Correlation id an outcome belongs to. -/
def CallOutcome.cid : CallOutcome → String
  | CallOutcome.response id => id
  | CallOutcome.decodeError id => id
  | CallOutcome.timeoutError id => id
  | CallOutcome.sendError id _ => id

/-- Map-style removal of a key from the pending or timer list. -/
def mapDelete (id : String) (l : List String) : List String :=
  l.filter (fun x => decide (x ≠ id))

/-- Synchronous part of request: the pending entry is inserted first,
then the frame is sent.  If the socket is open the 30 second timeout is
scheduled; if not, send throws, the promise rejects with the error
WebSocket not connected, no timer is scheduled, and the pending entry is
left in the map.  The settledCalls guard models promise semantics: only
the first settlement of a given call delivers an outcome. -/
def requestStep (s : GatewayState) (id : String) : GatewayState × List CallOutcome :=
  if s.wsOpen then
    ({ s with pending := id :: s.pending, timers := id :: s.timers }, [])
  else if id ∈ s.settledCalls then
    ({ s with pending := id :: s.pending }, [])
  else
    ({ s with pending := id :: s.pending, settledCalls := id :: s.settledCalls },
     [CallOutcome.sendError id "WebSocket not connected"])

/-- handleIncoming for a parsed frame carrying an id: if the id is
pending, the entry is deleted and the promise is resolved with the parsed
response, or rejected with the parse error, delivering an outcome unless
that promise was already settled; frames with no matching id are
ignored. -/
def handleIncomingStep (s : GatewayState) (id : String) (decodeOk : Bool) :
    GatewayState × List CallOutcome :=
  if id ∈ s.pending then
    if id ∈ s.settledCalls then
      ({ s with pending := mapDelete id s.pending }, [])
    else
      ({ s with pending := mapDelete id s.pending, settledCalls := id :: s.settledCalls },
       [if decodeOk then CallOutcome.response id else CallOutcome.decodeError id])
  else (s, [])

/-- The 30 second timeout callback of a request: the timer is consumed;
if the id is still pending the promise is rejected with the timeout error
(delivered unless already settled) and the entry is deleted. -/
def timeoutFireStep (s : GatewayState) (id : String) : GatewayState × List CallOutcome :=
  if id ∈ s.pending then
    if id ∈ s.settledCalls then
      ({ s with timers := mapDelete id s.timers, pending := mapDelete id s.pending }, [])
    else
      ({ s with timers := mapDelete id s.timers, pending := mapDelete id s.pending,
                settledCalls := id :: s.settledCalls },
       [CallOutcome.timeoutError id])
  else ({ s with timers := mapDelete id s.timers }, [])

/-- The ws.onclose handler: clears the connected flag, the session id and
the auth token, and schedules a reconnect.  It does not touch the pending
map, the timers or the sessionOpen flag, and resolves no promise. -/
def oncloseStep (s : GatewayState) : GatewayState × List CallOutcome :=
  ({ s with wsOpen := false, isConnected := false, sessionId := none, authToken := none }, [])

/-- The ws.onopen handler restricted to its state effect (the handshake it
triggers issues its own requests). -/
def onopenStep (s : GatewayState) : GatewayState × List CallOutcome :=
  ({ s with wsOpen := true, isConnected := true }, [])

/-- Events driving the gateway: a request being issued with a fresh
correlation id, an inbound frame, a scheduled timeout firing, and the
socket closing or opening. -/
inductive GatewayEv where
  | issueCall (id : String)
  | incoming (id : String) (decodeOk : Bool)
  | timerFires (id : String)
  | socketClosed
  | socketOpened
  deriving Repr, DecidableEq

/-- One gateway step. -/
def gatewayStep (s : GatewayState) : GatewayEv → GatewayState × List CallOutcome
  | GatewayEv.issueCall id => requestStep s id
  | GatewayEv.incoming id decodeOk => handleIncomingStep s id decodeOk
  | GatewayEv.timerFires id => timeoutFireStep s id
  | GatewayEv.socketClosed => oncloseStep s
  | GatewayEv.socketOpened => onopenStep s

/-- Run a sequence of gateway events, collecting delivered outcomes. -/
def gatewayRun (s : GatewayState) : List GatewayEv → GatewayState × List CallOutcome
  | [] => (s, [])
  | e :: es =>
      let r := gatewayStep s e
      let r2 := gatewayRun r.1 es
      (r2.1, r.2 ++ r2.2)

/-- Validity of a single event: issued correlation ids are globally fresh
(generateRequestId never repeats an id) and a timer can only fire if it
was scheduled. -/
def validStep (s : GatewayState) : GatewayEv → Bool
  | GatewayEv.issueCall id =>
      decide (id ∉ s.pending) && decide (id ∉ s.timers) && decide (id ∉ s.settledCalls)
  | GatewayEv.timerFires id => decide (id ∈ s.timers)
  | _ => true

/-- Validity of an event sequence from a given state. -/
def validTrace : GatewayState → List GatewayEv → Bool
  | _, [] => true
  | s, e :: es => validStep s e && validTrace (gatewayStep s e).1 es

/-- Number of outcomes delivered for a given correlation id. -/
def outcomesFor (id : String) (outs : List CallOutcome) : Nat :=
  outs.countP (fun o => decide (o.cid = id))

/-- The getSessionOpen accessor of the service. -/
def getSessionOpen (s : GatewayState) : Bool :=
  s.sessionOpen

/-- A fresh service state; the socket may or may not be open. -/
def initialGateway (wsOpen : Bool) : GatewayState :=
  { wsOpen := wsOpen, isConnected := wsOpen, sessionId := none, authToken := none,
    sessionOpen := false, pending := [], timers := [], settledCalls := [] }

/-- Outbound wire calls issued by the submission paths. -/
inductive OutboundCall where
  | sessionOpenCall
  | appMessage (sessionId : String) (payloadType : String)
  deriving Repr, DecidableEq

/-- openAppSession at the level of issued wire calls: it always issues the
session-open call; a response carrying a session id stores it and sets the
sessionOpen flag (the returned flag is false when the call failed, in
which case the method throws and its caller aborts). -/
def openAppSessionFlow (s : GatewayState) (resp : Option String) :
    (GatewayState × List OutboundCall) × Bool :=
  match resp with
  | some sid => (({ s with sessionId := some sid, sessionOpen := true },
                  [OutboundCall.sessionOpenCall]), true)
  | none => ((s, [OutboundCall.sessionOpenCall]), false)

/-- submitPrediction at the level of issued wire calls: if no session id
is held, openAppSession runs first (its failure propagates and nothing
else is sent); then the app message is sent under the held session id. -/
def submitPredictionFlow (s : GatewayState) (resp : Option String) :
    (GatewayState × List OutboundCall) × Bool :=
  if s.sessionId = none then
    match openAppSessionFlow s resp with
    | ((s1, calls), true) =>
        ((s1, calls ++ [OutboundCall.appMessage (s1.sessionId.getD "")
          "predictx/submit_prediction"]), true)
    | ((s1, calls), false) => ((s1, calls), false)
  else
    ((s, [OutboundCall.appMessage (s.sessionId.getD "") "predictx/submit_prediction"]), true)

/-- settlePrediction at the level of issued wire calls, mirroring
submitPrediction with the settle payload type. -/
def settlePredictionFlow (s : GatewayState) (resp : Option String) :
    (GatewayState × List OutboundCall) × Bool :=
  if s.sessionId = none then
    match openAppSessionFlow s resp with
    | ((s1, calls), true) =>
        ((s1, calls ++ [OutboundCall.appMessage (s1.sessionId.getD "")
          "predictx/settle_prediction"]), true)
    | ((s1, calls), false) => ((s1, calls), false)
  else
    ((s, [OutboundCall.appMessage (s.sessionId.getD "") "predictx/settle_prediction"]), true)

/-- A state with one outstanding call r1 and its scheduled timer. -/
def sPending : GatewayState :=
  { initialGateway true with pending := ["r1"], timers := ["r1"] }

/-- C3 counterexample: with one call outstanding, the socket-close
transition resolves nothing: no outcome at all is delivered by the close
step (in particular no connection-lost error) and the call is still in the
pending table afterwards.  This refutes the claim that all outstanding
calls are resolved within one scheduling step of leaving Connected. -/
theorem close_leaves_calls_pending_cex :
    (gatewayRun sPending [GatewayEv.socketClosed]).1.pending = ["r1"] ∧
    (gatewayRun sPending [GatewayEv.socketClosed]).2 = [] := by
  decide

/-- C3 amended: the close transition leaves the pending table untouched
and delivers no outcome; an outstanding call is resolved only later, by
its own 30 second deadline timer, and then with a timeout error rather
than a connection-lost error. -/
theorem close_preserves_pending_until_timeout (s : GatewayState) (id : String)
    (h1 : id ∈ s.pending) (h2 : id ∉ s.settledCalls) :
    (gatewayRun s [GatewayEv.socketClosed]).1.pending = s.pending ∧
    (gatewayRun s [GatewayEv.socketClosed]).2 = [] ∧
    (gatewayRun s [GatewayEv.socketClosed, GatewayEv.timerFires id]).2 =
      [CallOutcome.timeoutError id] := by
  refine ⟨rfl, rfl, ?_⟩
  simp [gatewayRun, gatewayStep, oncloseStep, timeoutFireStep, h1, h2]

/-- C3 amended, witnessed on the one-call state. -/
theorem close_preserves_pending_until_timeout_witness :
    ("r1" ∈ sPending.pending ∧ "r1" ∉ sPending.settledCalls) ∧
    ((gatewayRun sPending [GatewayEv.socketClosed]).1.pending = sPending.pending ∧
     (gatewayRun sPending [GatewayEv.socketClosed]).2 = [] ∧
     (gatewayRun sPending [GatewayEv.socketClosed, GatewayEv.timerFires "r1"]).2 =
       [CallOutcome.timeoutError "r1"]) :=
  ⟨⟨by decide, by decide⟩,
   close_preserves_pending_until_timeout sPending "r1" (by decide) (by decide)⟩

/-- A state holding an open session with its token and readiness flag. -/
def sOpen : GatewayState :=
  { initialGateway true with
      sessionOpen := true, sessionId := some "sid", authToken := some "tok" }

/-- C5 counterexample: after the close transition the readiness flag still
reports ready: getSessionOpen returns true although the connection left
Connected.  This refutes the conjunct of the claim that the readiness flag
reports not ready after a close. -/
theorem close_keeps_session_open_flag_cex :
    sOpen.sessionOpen = true ∧ getSessionOpen (oncloseStep sOpen).1 = true := by
  decide

/-- C5 amended: the close transition clears the stored session id and auth
token and marks the service disconnected, but it does not reset the
sessionOpen readiness flag, which keeps its prior value. -/
theorem close_clears_auth_but_not_session_flag (s : GatewayState) :
    (oncloseStep s).1.sessionId = none ∧
    (oncloseStep s).1.authToken = none ∧
    (oncloseStep s).1.isConnected = false ∧
    getSessionOpen (oncloseStep s).1 = getSessionOpen s :=
  ⟨rfl, rfl, rfl, rfl⟩

/-- A state holding an open session id on an open socket. -/
def sSess : GatewayState :=
  { initialGateway true with sessionId := some "sess1", sessionOpen := true }

/-- C9: when a session id is already held, both submission paths skip the
session-open call entirely: the only wire call issued is the app message,
it is sent under the existing session id, and the service state is
unchanged. -/
theorem ensure_session_noop_when_open (s : GatewayState) (sid : String)
    (r : Option String) (h : s.sessionId = some sid) :
    submitPredictionFlow s r =
      ((s, [OutboundCall.appMessage sid "predictx/submit_prediction"]), true) ∧
    settlePredictionFlow s r =
      ((s, [OutboundCall.appMessage sid "predictx/settle_prediction"]), true) := by
  constructor <;> simp [submitPredictionFlow, settlePredictionFlow, h]

/-- C9 witnessed on a state with session id sess1. -/
theorem ensure_session_noop_when_open_witness :
    sSess.sessionId = some "sess1" ∧
    (submitPredictionFlow sSess none =
       ((sSess, [OutboundCall.appMessage "sess1" "predictx/submit_prediction"]), true) ∧
     settlePredictionFlow sSess none =
       ((sSess, [OutboundCall.appMessage "sess1" "predictx/settle_prediction"]), true)) :=
  ⟨rfl, ensure_session_noop_when_open sSess "sess1" none rfl⟩

/-- C10: with a session id held but the socket not open, the submission
paths go straight to the app-message request, and that request rejects at
once: the pending entry is inserted, send throws, the promise is rejected
with the error WebSocket not connected, and the resulting state shows the
complete effect: no timer is scheduled, no frame is buffered, and nothing
is left that could retransmit the frame later. -/
theorem request_rejects_when_socket_closed (s : GatewayState) (id sid : String)
    (r : Option String) (h1 : s.sessionId = some sid) (h2 : s.wsOpen = false)
    (h3 : id ∉ s.settledCalls) :
    (submitPredictionFlow s r).1.2 =
      [OutboundCall.appMessage sid "predictx/submit_prediction"] ∧
    (settlePredictionFlow s r).1.2 =
      [OutboundCall.appMessage sid "predictx/settle_prediction"] ∧
    requestStep s id =
      ({ s with pending := id :: s.pending, settledCalls := id :: s.settledCalls },
       [CallOutcome.sendError id "WebSocket not connected"]) := by
  refine ⟨?_, ?_, ?_⟩
  · simp [submitPredictionFlow, h1]
  · simp [settlePredictionFlow, h1]
  · simp [requestStep, h2, h3]

/-- A disconnected state that still holds a session id. -/
def sClosed : GatewayState :=
  { initialGateway false with sessionId := some "sess1", sessionOpen := true }

/-- C10 witnessed on the disconnected state with session id sess1. -/
theorem request_rejects_when_socket_closed_witness :
    (sClosed.sessionId = some "sess1" ∧ sClosed.wsOpen = false ∧
     "r9" ∉ sClosed.settledCalls) ∧
    ((submitPredictionFlow sClosed none).1.2 =
       [OutboundCall.appMessage "sess1" "predictx/submit_prediction"] ∧
     (settlePredictionFlow sClosed none).1.2 =
       [OutboundCall.appMessage "sess1" "predictx/settle_prediction"] ∧
     requestStep sClosed "r9" =
       ({ sClosed with pending := ["r9"], settledCalls := ["r9"] },
        [CallOutcome.sendError "r9" "WebSocket not connected"])) :=
  ⟨⟨rfl, rfl, by decide⟩,
   request_rejects_when_socket_closed sClosed "r9" "sess1" none rfl rfl (by decide)⟩

lemma mem_mapDelete {a b : String} {l : List String} :
    a ∈ mapDelete b l ↔ a ∈ l ∧ a ≠ b := by
  simp [mapDelete]

/-- A call that was issued over an open socket and has received no
outcome yet: its pending entry and its deadline timer are live and its
promise is unsettled. -/
def InFlightCall (id : String) (s : GatewayState) : Prop :=
  id ∈ s.pending ∧ id ∈ s.timers ∧ id ∉ s.settledCalls

/-- A call whose single outcome has been delivered and whose pending
entry has been removed. -/
def SettledRemoved (id : String) (s : GatewayState) : Prop :=
  id ∉ s.pending ∧ id ∈ s.settledCalls

lemma outcomesFor_nil (id : String) : outcomesFor id [] = 0 := rfl

lemma outcomesFor_append (id : String) (l1 l2 : List CallOutcome) :
    outcomesFor id (l1 ++ l2) = outcomesFor id l1 + outcomesFor id l2 := by
  simp [outcomesFor, List.countP_append]

lemma outcomesFor_single_ne (id : String) (o : CallOutcome) (h : o.cid ≠ id) :
    outcomesFor id [o] = 0 := by
  simp [outcomesFor, List.countP_cons, h]

lemma outcomesFor_single_eq (id : String) (o : CallOutcome) (h : o.cid = id) :
    outcomesFor id [o] = 1 := by
  simp [outcomesFor, List.countP_cons, h]

lemma step_settled (id : String) (s : GatewayState) (e : GatewayEv)
    (hv : validStep s e = true) (h : SettledRemoved id s) :
    SettledRemoved id (gatewayStep s e).1 ∧ outcomesFor id (gatewayStep s e).2 = 0 := by
  obtain ⟨hpend, hset⟩ := h
  cases e with
  | issueCall j =>
      simp only [validStep, Bool.and_eq_true, decide_eq_true_iff] at hv
      have hne : id ≠ j := fun hh => hv.2 (hh ▸ hset)
      simp only [gatewayStep, requestStep]
      by_cases hws : s.wsOpen
      · simp only [if_pos hws]
        exact ⟨⟨by simp [hpend, hne], hset⟩, rfl⟩
      · by_cases hjs : j ∈ s.settledCalls
        · simp only [if_neg hws, if_pos hjs]
          exact ⟨⟨by simp [hpend, hne], hset⟩, rfl⟩
        · simp only [if_neg hws, if_neg hjs]
          refine ⟨⟨by simp [hpend, hne], List.mem_cons_of_mem _ hset⟩, ?_⟩
          exact outcomesFor_single_ne id _ (by simp [CallOutcome.cid]; exact fun hh => hne hh.symm)
  | incoming j ok =>
      simp only [gatewayStep, handleIncomingStep]
      by_cases hjp : j ∈ s.pending
      · have hne : id ≠ j := fun hh => hpend (hh ▸ hjp)
        by_cases hjs : j ∈ s.settledCalls
        · simp only [if_pos hjp, if_pos hjs]
          exact ⟨⟨fun hh => hpend (mem_mapDelete.mp hh).1, hset⟩, rfl⟩
        · simp only [if_pos hjp, if_neg hjs]
          refine ⟨⟨fun hh => hpend (mem_mapDelete.mp hh).1, List.mem_cons_of_mem _ hset⟩, ?_⟩
          apply outcomesFor_single_ne
          cases ok <;> simp [CallOutcome.cid] <;> exact fun hh => hne hh.symm
      · simp only [if_neg hjp]
        exact ⟨⟨hpend, hset⟩, rfl⟩
  | timerFires j =>
      simp only [gatewayStep, timeoutFireStep]
      by_cases hjp : j ∈ s.pending
      · have hne : id ≠ j := fun hh => hpend (hh ▸ hjp)
        by_cases hjs : j ∈ s.settledCalls
        · simp only [if_pos hjp, if_pos hjs]
          exact ⟨⟨fun hh => hpend (mem_mapDelete.mp hh).1, hset⟩, rfl⟩
        · simp only [if_pos hjp, if_neg hjs]
          refine ⟨⟨fun hh => hpend (mem_mapDelete.mp hh).1, List.mem_cons_of_mem _ hset⟩, ?_⟩
          exact outcomesFor_single_ne id _ (by simp [CallOutcome.cid]; exact fun hh => hne hh.symm)
      · simp only [if_neg hjp]
        exact ⟨⟨hpend, hset⟩, rfl⟩
  | socketClosed => exact ⟨⟨hpend, hset⟩, rfl⟩
  | socketOpened => exact ⟨⟨hpend, hset⟩, rfl⟩

lemma step_inflight (id : String) (s : GatewayState) (e : GatewayEv)
    (hv : validStep s e = true) (h : InFlightCall id s) :
    (InFlightCall id (gatewayStep s e).1 ∧ outcomesFor id (gatewayStep s e).2 = 0) ∨
    (SettledRemoved id (gatewayStep s e).1 ∧ outcomesFor id (gatewayStep s e).2 = 1) := by
  obtain ⟨hpend, htim, hset⟩ := h
  cases e with
  | issueCall j =>
      simp only [validStep, Bool.and_eq_true, decide_eq_true_iff] at hv
      have hne : id ≠ j := fun hh => hv.1.1 (hh ▸ hpend)
      simp only [gatewayStep, requestStep]
      by_cases hws : s.wsOpen
      · simp only [if_pos hws]
        exact Or.inl ⟨⟨List.mem_cons_of_mem _ hpend, List.mem_cons_of_mem _ htim, hset⟩, rfl⟩
      · by_cases hjs : j ∈ s.settledCalls
        · simp only [if_neg hws, if_pos hjs]
          exact Or.inl ⟨⟨List.mem_cons_of_mem _ hpend, htim, hset⟩, rfl⟩
        · simp only [if_neg hws, if_neg hjs]
          refine Or.inl ⟨⟨List.mem_cons_of_mem _ hpend, htim, by simp [hset, hne]⟩, ?_⟩
          exact outcomesFor_single_ne id _ (by simp [CallOutcome.cid]; exact fun hh => hne hh.symm)
  | incoming j ok =>
      simp only [gatewayStep, handleIncomingStep]
      by_cases hj : j = id
      · subst hj
        simp only [if_pos hpend, if_neg hset]
        refine Or.inr ⟨⟨fun hh => (mem_mapDelete.mp hh).2 rfl, List.mem_cons_self _ _⟩, ?_⟩
        apply outcomesFor_single_eq
        cases ok <;> rfl
      · have hne : id ≠ j := fun hh => hj hh.symm
        by_cases hjp : j ∈ s.pending
        · by_cases hjs : j ∈ s.settledCalls
          · simp only [if_pos hjp, if_pos hjs]
            exact Or.inl ⟨⟨mem_mapDelete.mpr ⟨hpend, hne⟩, htim, hset⟩, rfl⟩
          · simp only [if_pos hjp, if_neg hjs]
            refine Or.inl ⟨⟨mem_mapDelete.mpr ⟨hpend, hne⟩, htim, by simp [hset, hne]⟩, ?_⟩
            apply outcomesFor_single_ne
            cases ok <;> simp [CallOutcome.cid] <;> exact fun hh => hne hh.symm
        · simp only [if_neg hjp]
          exact Or.inl ⟨⟨hpend, htim, hset⟩, rfl⟩
  | timerFires j =>
      simp only [gatewayStep, timeoutFireStep]
      by_cases hj : j = id
      · subst hj
        simp only [if_pos hpend, if_neg hset]
        refine Or.inr ⟨⟨fun hh => (mem_mapDelete.mp hh).2 rfl, List.mem_cons_self _ _⟩, ?_⟩
        exact outcomesFor_single_eq _ _ rfl
      · have hne : id ≠ j := fun hh => hj hh.symm
        by_cases hjp : j ∈ s.pending
        · by_cases hjs : j ∈ s.settledCalls
          · simp only [if_pos hjp, if_pos hjs]
            exact Or.inl ⟨⟨mem_mapDelete.mpr ⟨hpend, hne⟩,
              mem_mapDelete.mpr ⟨htim, hne⟩, hset⟩, rfl⟩
          · simp only [if_pos hjp, if_neg hjs]
            refine Or.inl ⟨⟨mem_mapDelete.mpr ⟨hpend, hne⟩,
              mem_mapDelete.mpr ⟨htim, hne⟩, by simp [hset, hne]⟩, ?_⟩
            exact outcomesFor_single_ne id _ (by simp [CallOutcome.cid]; exact fun hh => hne hh.symm)
        · simp only [if_neg hjp]
          exact Or.inl ⟨⟨hpend, mem_mapDelete.mpr ⟨htim, hne⟩, hset⟩, rfl⟩
  | socketClosed => exact Or.inl ⟨⟨hpend, htim, hset⟩, rfl⟩
  | socketOpened => exact Or.inl ⟨⟨hpend, htim, hset⟩, rfl⟩

lemma run_settled (id : String) :
    ∀ (t : List GatewayEv) (s : GatewayState), validTrace s t = true →
      SettledRemoved id s →
      SettledRemoved id (gatewayRun s t).1 ∧ outcomesFor id (gatewayRun s t).2 = 0 := by
  intro t
  induction t with
  | nil => intro s _ h; exact ⟨h, rfl⟩
  | cons e es ih =>
      intro s hv h
      have hv1 : validStep s e = true ∧ validTrace (gatewayStep s e).1 es = true := by
        simpa [validTrace, Bool.and_eq_true] using hv
      obtain ⟨h1, h2⟩ := step_settled id s e hv1.1 h
      obtain ⟨h3, h4⟩ := ih (gatewayStep s e).1 hv1.2 h1
      refine ⟨h3, ?_⟩
      simp [gatewayRun, outcomesFor_append, h2, h4]

lemma run_inflight (id : String) :
    ∀ (t : List GatewayEv) (s : GatewayState), validTrace s t = true →
      InFlightCall id s →
      (InFlightCall id (gatewayRun s t).1 ∧ outcomesFor id (gatewayRun s t).2 = 0) ∨
      (SettledRemoved id (gatewayRun s t).1 ∧ outcomesFor id (gatewayRun s t).2 = 1) := by
  intro t
  induction t with
  | nil => intro s _ h; exact Or.inl ⟨h, rfl⟩
  | cons e es ih =>
      intro s hv h
      have hv1 : validStep s e = true ∧ validTrace (gatewayStep s e).1 es = true := by
        simpa [validTrace, Bool.and_eq_true] using hv
      rcases step_inflight id s e hv1.1 h with ⟨h1, h2⟩ | ⟨h1, h2⟩
      · rcases ih (gatewayStep s e).1 hv1.2 h1 with ⟨h3, h4⟩ | ⟨h3, h4⟩
        · exact Or.inl ⟨h3, by simp [gatewayRun, outcomesFor_append, h2, h4]⟩
        · exact Or.inr ⟨h3, by simp [gatewayRun, outcomesFor_append, h2, h4]⟩
      · obtain ⟨h3, h4⟩ := run_settled id es (gatewayStep s e).1 hv1.2 h1
        exact Or.inr ⟨h3, by simp [gatewayRun, outcomesFor_append, h2, h4]⟩

/-- C6 counterexample: a call issued while the socket is not open has its
outcome delivered at once (the send-error rejection, which is neither a
matching response nor the 30 second timeout), yet its entry stays in the
pending table after that delivery.  This refutes the conjunct of the claim
that the pending-call table never retains an entry after its outcome is
delivered, and the claim that the only possible outcomes are a response,
a decode error or the 30 second timeout. -/
theorem failed_send_retains_pending_entry_cex :
    validTrace (initialGateway false) [GatewayEv.issueCall "r1"] = true ∧
    (gatewayRun (initialGateway false) [GatewayEv.issueCall "r1"]).2 =
      [CallOutcome.sendError "r1" "WebSocket not connected"] ∧
    "r1" ∈ (gatewayRun (initialGateway false) [GatewayEv.issueCall "r1"]).1.pending := by
  decide

/-- C6 amended: for every call whose initial send succeeds, that is every
call issued while the socket is open, exactly one outcome is delivered
over any valid continuation whose deadline has passed (the final state no
longer holds the timer), and the pending entry is gone afterwards; a call
issued while the socket is closed instead rejects immediately with the
send error and leaks its pending entry. -/
theorem sent_call_single_outcome (s : GatewayState) (id : String)
    (t : List GatewayEv) (hopen : s.wsOpen = true)
    (hv : validTrace s (GatewayEv.issueCall id :: t) = true)
    (hdone : id ∉ (gatewayRun s (GatewayEv.issueCall id :: t)).1.timers) :
    outcomesFor id (gatewayRun s (GatewayEv.issueCall id :: t)).2 = 1 ∧
    id ∉ (gatewayRun s (GatewayEv.issueCall id :: t)).1.pending := by
  have hv1 : validStep s (GatewayEv.issueCall id) = true ∧
      validTrace (gatewayStep s (GatewayEv.issueCall id)).1 t = true := by
    simpa [validTrace, Bool.and_eq_true] using hv
  have hfresh := hv1.1
  simp only [validStep, Bool.and_eq_true, decide_eq_true_iff] at hfresh
  have hstep : gatewayStep s (GatewayEv.issueCall id) =
      ({ s with pending := id :: s.pending, timers := id :: s.timers }, []) := by
    simp [gatewayStep, requestStep, hopen]
  have hin : InFlightCall id (gatewayStep s (GatewayEv.issueCall id)).1 := by
    rw [hstep]
    exact ⟨List.mem_cons_self _ _, List.mem_cons_self _ _, hfresh.2⟩
  have hrun : gatewayRun s (GatewayEv.issueCall id :: t) =
      ((gatewayRun (gatewayStep s (GatewayEv.issueCall id)).1 t).1,
       (gatewayStep s (GatewayEv.issueCall id)).2 ++
         (gatewayRun (gatewayStep s (GatewayEv.issueCall id)).1 t).2) := rfl
  rcases run_inflight id t (gatewayStep s (GatewayEv.issueCall id)).1 hv1.2 hin with
    ⟨h1, _⟩ | ⟨h1, h2⟩
  · exact absurd (by rw [hrun]; exact h1.2.1) hdone
  · constructor
    · rw [hrun, outcomesFor_append]
      have h0 : outcomesFor id (gatewayStep s (GatewayEv.issueCall id)).2 = 0 := by
        rw [hstep]
        rfl
      omega
    · rw [hrun]
      exact h1.1

/-- C6 amended, witnessed on a fresh open-socket gateway: one call, its
timer fires, exactly one timeout outcome, entry removed. -/
theorem sent_call_single_outcome_witness :
    ((initialGateway true).wsOpen = true ∧
     validTrace (initialGateway true)
       [GatewayEv.issueCall "r1", GatewayEv.timerFires "r1"] = true ∧
     "r1" ∉ (gatewayRun (initialGateway true)
       [GatewayEv.issueCall "r1", GatewayEv.timerFires "r1"]).1.timers) ∧
    (outcomesFor "r1" (gatewayRun (initialGateway true)
       [GatewayEv.issueCall "r1", GatewayEv.timerFires "r1"]).2 = 1 ∧
     "r1" ∉ (gatewayRun (initialGateway true)
       [GatewayEv.issueCall "r1", GatewayEv.timerFires "r1"]).1.pending) :=
  ⟨⟨rfl, by decide, by decide⟩,
   sent_call_single_outcome (initialGateway true) "r1" [GatewayEv.timerFires "r1"]
     rfl (by decide) (by decide)⟩

end PredictX
